import Mathlib

/-!
Verification of the Beat Drift Monitor core (`core/beat_tracker.js`).

The tracker is embedded shallowly: the closure state of `createBeatTracker`
becomes the `Tracker` structure, every mutation path of `addOnset`, `reset`,
`setTarget` and the silence watchdog becomes a pure function on `Tracker`, and
JavaScript numbers are modelled as exact rationals (`ℚ`).  `Math.round` is
modelled by `round : ℚ → ℤ`, which agrees with JavaScript's round-half-up
behaviour on all inputs.  Emitted `Update` records and appended trace records
(identified by their `event` tag) are returned explicitly in `StepOut`.
-/

namespace BeatDrift

/- The Batteries rational arithmetic is shipped `@[irreducible]`; restore the
default reducibility so that `decide` can evaluate the tracker on concrete
rational inputs. -/
attribute [local semireducible] Rat.ofScientific Rat.mul Rat.inv Rat.add Rat.sub

/-- The state machine states, from the `State` enum in beat_tracker.js. -/
inductive TState where
  | IDLE
  | CALIBRATING
  | TRACKING
  | WAITING
deriving DecidableEq

/-- The full mutable state of one tracker instance: the closure variables of
`createBeatTracker` in beat_tracker.js. -/
@[ext]
structure Tracker where
  state : TState
  period : ℚ
  phase : ℚ
  targetPeriod : ℚ
  confidence : ℚ
  calOnsets : List ℚ
  onsetCount : Nat
  gridHits : Nat
  gridMisses : Nat
  recentPeriods : List ℚ
  lastOnsetTime : ℚ
deriving DecidableEq

/-- CONSTANTS.CAL_BEATS -/
def CAL_BEATS : Nat := 8

/-- CONSTANTS.ADAPT_FAST -/
def ADAPT_FAST : ℚ := 0.08

/-- CONSTANTS.ADAPT_SLOW -/
def ADAPT_SLOW : ℚ := 0.005

/-- CONSTANTS.GRID_TOLERANCE -/
def GRID_TOLERANCE : ℚ := 0.35

/-- CONSTANTS.SILENCE_TIMEOUT_MS -/
def SILENCE_TIMEOUT_MS : ℚ := 4000

/-- CONSTANTS.PERIOD_HISTORY -/
def PERIOD_HISTORY : Nat := 12

/-- CONSTANTS.MIN_PERIOD_MS -/
def MIN_PERIOD_MS : ℚ := 200

/-- CONSTANTS.MAX_PERIOD_MS -/
def MAX_PERIOD_MS : ℚ := 1500

/-- The Update record built by `emitUpdate` in beat_tracker.js.  `null` bpm
fields are modelled as `none`. -/
structure Update where
  state : TState
  currentBpm : Option ℚ
  targetBpm : Option ℚ
  drift : ℚ
  confidence : ℤ
  beatCount : Nat
  calibrationNeeded : Nat
  gridHits : Nat
  gridMisses : Nat
  period : ℚ
  targetPeriod : ℚ
deriving DecidableEq

/-- `emitUpdate` from beat_tracker.js.  JavaScript truthiness on the bpm
values coincides with the positivity tests, because `60000 / period` is
nonzero and positive exactly when `period > 0`. -/
def emitUpdate (s : Tracker) : Update :=
  let currentBpm : Option ℚ := if 0 < s.period then some (60000 / s.period) else none
  let targetBpm : Option ℚ := if 0 < s.targetPeriod then some (60000 / s.targetPeriod) else none
  let drift : ℚ :=
    match currentBpm, targetBpm with
    | some c, some t => c - t
    | _, _ => 0
  { state := s.state
    currentBpm := currentBpm.map fun b => (round (b * 10) : ℚ) / 10
    targetBpm := targetBpm.map fun b => (round (b * 10) : ℚ) / 10
    drift := (round (drift * 10) : ℚ) / 10
    confidence := round (s.confidence * 100)
    beatCount := s.calOnsets.length
    calibrationNeeded := CAL_BEATS
    gridHits := s.gridHits
    gridMisses := s.gridMisses
    period := s.period
    targetPeriod := s.targetPeriod }

/-- `findDominantPeriod` from beat_tracker.js (the Dominant Period Estimator).
The JavaScript comparator `(a, b) => a - b` is an ascending sort. -/
def findDominantPeriod (intervals : List ℚ) : ℚ :=
  if intervals.isEmpty then 0 else
  let sorted := intervals.insertionSort (· ≤ ·)
  let valid := sorted.filter fun i => decide (MIN_PERIOD_MS < i ∧ i < 2000)
  if valid.isEmpty then 0 else
  let candidates := valid.take (max 1 (Int.toNat ⌈(valid.length : ℚ) * 0.6⌉))
  let candidateMedian := candidates.getD (candidates.length / 2) 0
  let score := valid.countP fun iv =>
    let ratio := iv / candidateMedian
    let nearestInt := round ratio
    decide (|ratio - (nearestInt : ℚ)| < 0.15 ∧ 1 ≤ nearestInt ∧ nearestInt ≤ 4)
  if (valid.length : ℚ) * 0.5 ≤ (score : ℚ) then candidateMedian
  else valid.getD (valid.length / 2) 0

/-- The Dominant Period Estimator as worded in the spec (§4.2): discard
intervals outside `(MIN_PERIOD_MS, 2000)`; if none remain, return 0; sort
ascending; take the lower 60% (rounded up, at least one element) as
candidates; the candidate set's median (the middle element of the sorted
candidate list) is the trial base period; score every valid interval by
closeness of its ratio to the trial base to the nearest integer in `[1, 4]`
with 15% fractional tolerance; return the trial median if at least half the
valid intervals fit, else the median of all valid intervals. -/
def specDominantPeriod (intervals : List ℚ) : ℚ :=
  let valid := (intervals.filter fun i => decide (MIN_PERIOD_MS < i ∧ i < 2000)).insertionSort (· ≤ ·)
  if valid.isEmpty then 0 else
  let candidates := valid.take (max 1 (Int.toNat ⌈(valid.length : ℚ) * 0.6⌉))
  let candidateMedian := candidates.getD (candidates.length / 2) 0
  let score := valid.countP fun iv =>
    let ratio := iv / candidateMedian
    let nearestInt := round ratio
    decide (|ratio - (nearestInt : ℚ)| < 0.15 ∧ 1 ≤ nearestInt ∧ nearestInt ≤ 4)
  if (valid.length : ℚ) * 0.5 ≤ (score : ℚ) then candidateMedian
  else valid.getD (valid.length / 2) 0

/-- The fractional grid offset computed at the top of the TRACKING phase of
`addOnset`: `beatFraction - nearestBeat`, in `[-1/2, 1/2)`. -/
def gridOffset (s : Tracker) (t : ℚ) : ℚ :=
  let beatFraction := (t - s.phase) / s.period
  beatFraction - (round beatFraction : ℚ)

/-- Consecutive inter-onset intervals, as computed at the head of the
calibration-completion branch of `addOnset`. -/
def intervalsOf (onsets : List ℚ) : List ℚ :=
  (onsets.zip onsets.tail).map fun p => p.2 - p.1

/-- The result of one engine entry point: the new tracker state, the Update
records emitted, and the trace records appended (by their `event` tag). -/
structure StepOut where
  tracker : Tracker
  updates : List Update
  events : List String
deriving DecidableEq

/-- The `state === State.WAITING` branch of `addOnset`: resume from silence
restarts calibration from this one onset. -/
def resumeStep (t : ℚ) (s0 : Tracker) : StepOut :=
  let s := { s0 with calOnsets := [t], state := TState.CALIBRATING }
  ⟨s, [emitUpdate s], ["resume_from_waiting"]⟩

/-- The CALIBRATION PHASE branch of `addOnset`. -/
def calStep (t : ℚ) (s0 : Tracker) : StepOut :=
  let s := { s0 with calOnsets := s0.calOnsets ++ [t] }
  if s.calOnsets.length < CAL_BEATS + 1 then
    ⟨s, [emitUpdate s], ["calibrating"]⟩
  else
    let basePeriod := findDominantPeriod (intervalsOf s.calOnsets)
    if 0 < basePeriod then
      let s2 := { s with period := basePeriod, targetPeriod := basePeriod, phase := t,
                         confidence := 0.5, recentPeriods := [basePeriod],
                         state := TState.TRACKING }
      ⟨s2, [emitUpdate s2], ["calibration_complete"]⟩
    else ⟨s, [emitUpdate s], []⟩

/-- The on-grid / off-grid half of the TRACKING phase of `addOnset`: grid
position calculation, the grid-hit counters, fast and slow adaptation, phase
correction and the confidence moves, with the event tag. -/
def gridHitStep (t : ℚ) (s : Tracker) : Tracker × String :=
  let timeSincePhase := t - s.phase
  let beatFraction := timeSincePhase / s.period
  let nearestBeat : ℤ := round beatFraction
  let offset := beatFraction - (nearestBeat : ℚ)
  let absOffset := |offset|
  if absOffset < GRID_TOLERANCE then
    let s1 := { s with gridHits := s.gridHits + 1 }
    let impliedPeriod := timeSincePhase / (nearestBeat : ℚ)
    if MIN_PERIOD_MS < impliedPeriod ∧ impliedPeriod < MAX_PERIOD_MS ∧ 0 < nearestBeat then
      let period1 := s1.period + ADAPT_FAST * (impliedPeriod - s1.period)
      let targetPeriod1 := s1.targetPeriod + ADAPT_SLOW * (period1 - s1.targetPeriod)
      let phase1 := t - (nearestBeat : ℚ) * period1 + offset * period1 * 0.3
      let recent0 := s1.recentPeriods ++ [impliedPeriod]
      let recent1 := if PERIOD_HISTORY < recent0.length then recent0.tail else recent0
      ({ s1 with period := period1, targetPeriod := targetPeriod1, phase := phase1,
                 recentPeriods := recent1,
                 confidence := min 1 (s1.confidence + 0.05) }, "on_grid")
    else (s1, "on_grid")
  else
    ({ s with gridMisses := s.gridMisses + 1,
              confidence := max 0 (s.confidence - 0.02) }, "off_grid")

/-- The double-tempo detection half of the TRACKING phase of `addOnset`,
applied to the result `hit` of `gridHitStep`; the grid offset is recomputed
from the pre-onset state `s` exactly as in the source, where `absOffset` is
still in scope. -/
def doubleTempoStep (t : ℚ) (s : Tracker) (hit : Tracker × String) : Tracker × String :=
  let timeSincePhase := t - s.phase
  let beatFraction := timeSincePhase / s.period
  let nearestBeat : ℤ := round beatFraction
  let offset := beatFraction - (nearestBeat : ℚ)
  let absOffset := |offset|
  let s1 := hit.1
  if 0.35 < absOffset ∧ absOffset < 0.65 ∧
      (s1.gridHits : ℚ) * 0.5 < (s1.gridMisses : ℚ) ∧ 6 < s1.gridMisses then
    let halfPeriod := s1.period / 2
    if MIN_PERIOD_MS < halfPeriod then
      ({ s1 with period := halfPeriod, targetPeriod := halfPeriod,
                 recentPeriods := s1.recentPeriods.map fun p => p / 2,
                 phase := t, gridHits := 0, gridMisses := 0,
                 confidence := max 0.3 (s1.confidence - 0.2) }, "double_tempo_correction")
    else hit
  else hit

/-- The TRACKING PHASE of `addOnset`: on-grid / off-grid handling followed by
the double-tempo correction, then one trace record and one Update. -/
def trackStep (t : ℚ) (s : Tracker) : StepOut :=
  let corrected := doubleTempoStep t s (gridHitStep t s)
  ⟨corrected.1, [emitUpdate corrected.1], [corrected.2]⟩

/-- `addOnset` from beat_tracker.js, dispatching to the branch functions in
the same order as the source's early returns. -/
def addOnset (t : ℚ) (s0 : Tracker) : StepOut :=
  let s := { s0 with lastOnsetTime := t, onsetCount := s0.onsetCount + 1 }
  if s.state = TState.WAITING then resumeStep t s
  else if s.state = TState.CALIBRATING then calStep t s
  else if s.state = TState.TRACKING ∧ ¬s.period = 0 then trackStep t s
  else ⟨s, [], []⟩

/-- `reset` from beat_tracker.js. -/
def reset (s0 : Tracker) : Tracker × List Update :=
  let s := { s0 with period := 0, phase := 0, targetPeriod := 0, confidence := 0,
                     calOnsets := [], recentPeriods := [], onsetCount := 0,
                     gridHits := 0, gridMisses := 0, state := TState.CALIBRATING }
  (s, [emitUpdate s])

/-- `enterWaiting` from beat_tracker.js. -/
def enterWaiting (s0 : Tracker) : Tracker × List Update :=
  let s := { s0 with state := TState.WAITING, confidence := 0 }
  (s, [emitUpdate s])

/-- One tick of the interval callback installed by `startSilenceWatch` in
beat_tracker.js, evaluated at wall-clock time `now`. -/
def silenceTick (now : ℚ) (s : Tracker) : Tracker × List Update :=
  if s.state = TState.IDLE then (s, [])
  else
    let gap := now - s.lastOnsetTime
    if 0 < s.lastOnsetTime ∧ SILENCE_TIMEOUT_MS < gap then
      if s.state = TState.TRACKING ∨ s.state = TState.CALIBRATING then enterWaiting s
      else (s, [])
    else (s, [])

/-- `setTarget` from beat_tracker.js; `now` models `performance.now()`. -/
def setTarget (now bpm : ℚ) (s0 : Tracker) : Tracker × List Update :=
  let tp := 60000 / bpm
  let s := { s0 with targetPeriod := tp, period := tp, phase := now, confidence := 0.7,
                     state := TState.TRACKING, calOnsets := List.replicate (CAL_BEATS + 1) 0 }
  (s, [emitUpdate s])

/-- The state of a freshly constructed tracker (`createBeatTracker`). -/
def initTracker : Tracker :=
  { state := TState.IDLE, period := 0, phase := 0, targetPeriod := 0, confidence := 0,
    calOnsets := [], onsetCount := 0, gridHits := 0, gridMisses := 0,
    recentPeriods := [], lastOnsetTime := 0 }

/-- Feed a list of onset timestamps through `addOnset`, as the test runner's
onset loop does. -/
def feed (s : Tracker) (ts : List ℚ) : Tracker :=
  ts.foldl (fun a t => (addOnset t a).tracker) s

/-- A concrete tracker calibrated by nine onsets at 1000 ms spacing: after
this run `state = TRACKING`, `period = targetPeriod = 1000`, `phase = 8000`
and `confidence = 0.5`. -/
def calibrated : Tracker :=
  feed (reset initTracker).1 [0, 1000, 2000, 3000, 4000, 5000, 6000, 7000, 8000]

/-- The calibrated tracker after one on-grid onset at 9100 (which moves
`period` to 1008, `targetPeriod` to 1000.04 and `phase` to 8122.24) followed
by seven off-grid onsets at exact grid offset 0.35 (each counts a miss but
stays outside the double-tempo band), reaching `gridHits = 1`,
`gridMisses = 7` while still TRACKING. -/
def halfBeatRun : Tracker :=
  feed calibrated
    [9100, 9483.04, 10491.04, 11499.04, 12507.04, 13515.04, 14523.04, 15531.04]

/-- The value of `calibrated`, written out field by field. -/
def calibratedLit : Tracker :=
  { state := TState.TRACKING, period := 1000, phase := 8000, targetPeriod := 1000,
    confidence := 1/2,
    calOnsets := [0, 1000, 2000, 3000, 4000, 5000, 6000, 7000, 8000],
    onsetCount := 9, gridHits := 0, gridMisses := 0, recentPeriods := [1000],
    lastOnsetTime := 8000 }

/-- The value of `halfBeatRun`, written out field by field. -/
def halfBeatRunLit : Tracker :=
  { state := TState.TRACKING, period := 1008, phase := 203056/25, targetPeriod := 25001/25,
    confidence := 41/100,
    calOnsets := [0, 1000, 2000, 3000, 4000, 5000, 6000, 7000, 8000],
    onsetCount := 17, gridHits := 1, gridMisses := 7, recentPeriods := [1000, 1100],
    lastOnsetTime := 388276/25 }

/-- A directly constructed TRACKING state used to exercise the double-tempo
correction: period 1000 ms, phase 0, six prior misses, confidence 0.5. -/
def halfBeatState : Tracker :=
  { initTracker with state := TState.TRACKING, period := 1000,
                     gridMisses := 6, confidence := 0.5 }

/-- All tracker states reachable by sequences of the public operations:
construction, `reset`, `addOnset` with arbitrary timestamps, `setTarget` with
positive bpm, and silence-watchdog ticks. -/
inductive Reachable : Tracker → Prop where
  | init : Reachable initTracker
  | reset {s} : Reachable s → Reachable (reset s).1
  | onset {s} : Reachable s → ∀ t : ℚ, Reachable (addOnset t s).tracker
  | target {s} : Reachable s → ∀ now bpm : ℚ, 0 < bpm → Reachable (setTarget now bpm s).1
  | tick {s} : Reachable s → ∀ now : ℚ, Reachable (silenceTick now s).1

set_option maxRecDepth 4000

/-- Single-step evaluation of `reset` on the fresh tracker. -/
theorem runStep0 : (reset initTracker).1 =
    { state := TState.CALIBRATING, period := 0, phase := 0, targetPeriod := 0, confidence := 0, calOnsets := [], onsetCount := 0, gridHits := 0, gridMisses := 0, recentPeriods := [], lastOnsetTime := 0 } := by
  apply Tracker.ext <;> decide

/-- Single-step evaluation of onset 0 in the concrete runs. -/
theorem runStep1 : (addOnset 0
    { state := TState.CALIBRATING, period := 0, phase := 0, targetPeriod := 0, confidence := 0, calOnsets := [], onsetCount := 0, gridHits := 0, gridMisses := 0, recentPeriods := [], lastOnsetTime := 0 }).tracker =
    { state := TState.CALIBRATING, period := 0, phase := 0, targetPeriod := 0, confidence := 0, calOnsets := [0], onsetCount := 1, gridHits := 0, gridMisses := 0, recentPeriods := [], lastOnsetTime := 0 } := by
  apply Tracker.ext <;> decide

/-- Single-step evaluation of onset 1000 in the concrete runs. -/
theorem runStep2 : (addOnset 1000
    { state := TState.CALIBRATING, period := 0, phase := 0, targetPeriod := 0, confidence := 0, calOnsets := [0], onsetCount := 1, gridHits := 0, gridMisses := 0, recentPeriods := [], lastOnsetTime := 0 }).tracker =
    { state := TState.CALIBRATING, period := 0, phase := 0, targetPeriod := 0, confidence := 0, calOnsets := [0, 1000], onsetCount := 2, gridHits := 0, gridMisses := 0, recentPeriods := [], lastOnsetTime := 1000 } := by
  apply Tracker.ext <;> decide

/-- Single-step evaluation of onset 2000 in the concrete runs. -/
theorem runStep3 : (addOnset 2000
    { state := TState.CALIBRATING, period := 0, phase := 0, targetPeriod := 0, confidence := 0, calOnsets := [0, 1000], onsetCount := 2, gridHits := 0, gridMisses := 0, recentPeriods := [], lastOnsetTime := 1000 }).tracker =
    { state := TState.CALIBRATING, period := 0, phase := 0, targetPeriod := 0, confidence := 0, calOnsets := [0, 1000, 2000], onsetCount := 3, gridHits := 0, gridMisses := 0, recentPeriods := [], lastOnsetTime := 2000 } := by
  apply Tracker.ext <;> decide

/-- Single-step evaluation of onset 3000 in the concrete runs. -/
theorem runStep4 : (addOnset 3000
    { state := TState.CALIBRATING, period := 0, phase := 0, targetPeriod := 0, confidence := 0, calOnsets := [0, 1000, 2000], onsetCount := 3, gridHits := 0, gridMisses := 0, recentPeriods := [], lastOnsetTime := 2000 }).tracker =
    { state := TState.CALIBRATING, period := 0, phase := 0, targetPeriod := 0, confidence := 0, calOnsets := [0, 1000, 2000, 3000], onsetCount := 4, gridHits := 0, gridMisses := 0, recentPeriods := [], lastOnsetTime := 3000 } := by
  apply Tracker.ext <;> decide

/-- Single-step evaluation of onset 4000 in the concrete runs. -/
theorem runStep5 : (addOnset 4000
    { state := TState.CALIBRATING, period := 0, phase := 0, targetPeriod := 0, confidence := 0, calOnsets := [0, 1000, 2000, 3000], onsetCount := 4, gridHits := 0, gridMisses := 0, recentPeriods := [], lastOnsetTime := 3000 }).tracker =
    { state := TState.CALIBRATING, period := 0, phase := 0, targetPeriod := 0, confidence := 0, calOnsets := [0, 1000, 2000, 3000, 4000], onsetCount := 5, gridHits := 0, gridMisses := 0, recentPeriods := [], lastOnsetTime := 4000 } := by
  apply Tracker.ext <;> decide

/-- Single-step evaluation of onset 5000 in the concrete runs. -/
theorem runStep6 : (addOnset 5000
    { state := TState.CALIBRATING, period := 0, phase := 0, targetPeriod := 0, confidence := 0, calOnsets := [0, 1000, 2000, 3000, 4000], onsetCount := 5, gridHits := 0, gridMisses := 0, recentPeriods := [], lastOnsetTime := 4000 }).tracker =
    { state := TState.CALIBRATING, period := 0, phase := 0, targetPeriod := 0, confidence := 0, calOnsets := [0, 1000, 2000, 3000, 4000, 5000], onsetCount := 6, gridHits := 0, gridMisses := 0, recentPeriods := [], lastOnsetTime := 5000 } := by
  apply Tracker.ext <;> decide

/-- Single-step evaluation of onset 6000 in the concrete runs. -/
theorem runStep7 : (addOnset 6000
    { state := TState.CALIBRATING, period := 0, phase := 0, targetPeriod := 0, confidence := 0, calOnsets := [0, 1000, 2000, 3000, 4000, 5000], onsetCount := 6, gridHits := 0, gridMisses := 0, recentPeriods := [], lastOnsetTime := 5000 }).tracker =
    { state := TState.CALIBRATING, period := 0, phase := 0, targetPeriod := 0, confidence := 0, calOnsets := [0, 1000, 2000, 3000, 4000, 5000, 6000], onsetCount := 7, gridHits := 0, gridMisses := 0, recentPeriods := [], lastOnsetTime := 6000 } := by
  apply Tracker.ext <;> decide

/-- Single-step evaluation of onset 7000 in the concrete runs. -/
theorem runStep8 : (addOnset 7000
    { state := TState.CALIBRATING, period := 0, phase := 0, targetPeriod := 0, confidence := 0, calOnsets := [0, 1000, 2000, 3000, 4000, 5000, 6000], onsetCount := 7, gridHits := 0, gridMisses := 0, recentPeriods := [], lastOnsetTime := 6000 }).tracker =
    { state := TState.CALIBRATING, period := 0, phase := 0, targetPeriod := 0, confidence := 0, calOnsets := [0, 1000, 2000, 3000, 4000, 5000, 6000, 7000], onsetCount := 8, gridHits := 0, gridMisses := 0, recentPeriods := [], lastOnsetTime := 7000 } := by
  apply Tracker.ext <;> decide

/-- Single-step evaluation of onset 8000 in the concrete runs. -/
theorem runStep9 : (addOnset 8000
    { state := TState.CALIBRATING, period := 0, phase := 0, targetPeriod := 0, confidence := 0, calOnsets := [0, 1000, 2000, 3000, 4000, 5000, 6000, 7000], onsetCount := 8, gridHits := 0, gridMisses := 0, recentPeriods := [], lastOnsetTime := 7000 }).tracker =
    calibratedLit := by
  apply Tracker.ext <;> decide

/-- Single-step evaluation of onset 9100 in the concrete runs. -/
theorem runStep10 : (addOnset 9100
    calibratedLit).tracker =
    { state := TState.TRACKING, period := 1008, phase := 203056/25, targetPeriod := 25001/25, confidence := 11/20, calOnsets := [0, 1000, 2000, 3000, 4000, 5000, 6000, 7000, 8000], onsetCount := 10, gridHits := 1, gridMisses := 0, recentPeriods := [1000, 1100], lastOnsetTime := 9100 } := by
  apply Tracker.ext <;> decide

/-- Single-step evaluation of onset 9483.04 in the concrete runs. -/
theorem runStep11 : (addOnset 9483.04
    { state := TState.TRACKING, period := 1008, phase := 203056/25, targetPeriod := 25001/25, confidence := 11/20, calOnsets := [0, 1000, 2000, 3000, 4000, 5000, 6000, 7000, 8000], onsetCount := 10, gridHits := 1, gridMisses := 0, recentPeriods := [1000, 1100], lastOnsetTime := 9100 }).tracker =
    { state := TState.TRACKING, period := 1008, phase := 203056/25, targetPeriod := 25001/25, confidence := 53/100, calOnsets := [0, 1000, 2000, 3000, 4000, 5000, 6000, 7000, 8000], onsetCount := 11, gridHits := 1, gridMisses := 1, recentPeriods := [1000, 1100], lastOnsetTime := 237076/25 } := by
  apply Tracker.ext <;> decide

/-- Single-step evaluation of onset 10491.04 in the concrete runs. -/
theorem runStep12 : (addOnset 10491.04
    { state := TState.TRACKING, period := 1008, phase := 203056/25, targetPeriod := 25001/25, confidence := 53/100, calOnsets := [0, 1000, 2000, 3000, 4000, 5000, 6000, 7000, 8000], onsetCount := 11, gridHits := 1, gridMisses := 1, recentPeriods := [1000, 1100], lastOnsetTime := 237076/25 }).tracker =
    { state := TState.TRACKING, period := 1008, phase := 203056/25, targetPeriod := 25001/25, confidence := 51/100, calOnsets := [0, 1000, 2000, 3000, 4000, 5000, 6000, 7000, 8000], onsetCount := 12, gridHits := 1, gridMisses := 2, recentPeriods := [1000, 1100], lastOnsetTime := 262276/25 } := by
  apply Tracker.ext <;> decide

/-- Single-step evaluation of onset 11499.04 in the concrete runs. -/
theorem runStep13 : (addOnset 11499.04
    { state := TState.TRACKING, period := 1008, phase := 203056/25, targetPeriod := 25001/25, confidence := 51/100, calOnsets := [0, 1000, 2000, 3000, 4000, 5000, 6000, 7000, 8000], onsetCount := 12, gridHits := 1, gridMisses := 2, recentPeriods := [1000, 1100], lastOnsetTime := 262276/25 }).tracker =
    { state := TState.TRACKING, period := 1008, phase := 203056/25, targetPeriod := 25001/25, confidence := 49/100, calOnsets := [0, 1000, 2000, 3000, 4000, 5000, 6000, 7000, 8000], onsetCount := 13, gridHits := 1, gridMisses := 3, recentPeriods := [1000, 1100], lastOnsetTime := 287476/25 } := by
  apply Tracker.ext <;> decide

/-- Single-step evaluation of onset 12507.04 in the concrete runs. -/
theorem runStep14 : (addOnset 12507.04
    { state := TState.TRACKING, period := 1008, phase := 203056/25, targetPeriod := 25001/25, confidence := 49/100, calOnsets := [0, 1000, 2000, 3000, 4000, 5000, 6000, 7000, 8000], onsetCount := 13, gridHits := 1, gridMisses := 3, recentPeriods := [1000, 1100], lastOnsetTime := 287476/25 }).tracker =
    { state := TState.TRACKING, period := 1008, phase := 203056/25, targetPeriod := 25001/25, confidence := 47/100, calOnsets := [0, 1000, 2000, 3000, 4000, 5000, 6000, 7000, 8000], onsetCount := 14, gridHits := 1, gridMisses := 4, recentPeriods := [1000, 1100], lastOnsetTime := 312676/25 } := by
  apply Tracker.ext <;> decide

/-- Single-step evaluation of onset 13515.04 in the concrete runs. -/
theorem runStep15 : (addOnset 13515.04
    { state := TState.TRACKING, period := 1008, phase := 203056/25, targetPeriod := 25001/25, confidence := 47/100, calOnsets := [0, 1000, 2000, 3000, 4000, 5000, 6000, 7000, 8000], onsetCount := 14, gridHits := 1, gridMisses := 4, recentPeriods := [1000, 1100], lastOnsetTime := 312676/25 }).tracker =
    { state := TState.TRACKING, period := 1008, phase := 203056/25, targetPeriod := 25001/25, confidence := 9/20, calOnsets := [0, 1000, 2000, 3000, 4000, 5000, 6000, 7000, 8000], onsetCount := 15, gridHits := 1, gridMisses := 5, recentPeriods := [1000, 1100], lastOnsetTime := 337876/25 } := by
  apply Tracker.ext <;> decide

/-- Single-step evaluation of onset 14523.04 in the concrete runs. -/
theorem runStep16 : (addOnset 14523.04
    { state := TState.TRACKING, period := 1008, phase := 203056/25, targetPeriod := 25001/25, confidence := 9/20, calOnsets := [0, 1000, 2000, 3000, 4000, 5000, 6000, 7000, 8000], onsetCount := 15, gridHits := 1, gridMisses := 5, recentPeriods := [1000, 1100], lastOnsetTime := 337876/25 }).tracker =
    { state := TState.TRACKING, period := 1008, phase := 203056/25, targetPeriod := 25001/25, confidence := 43/100, calOnsets := [0, 1000, 2000, 3000, 4000, 5000, 6000, 7000, 8000], onsetCount := 16, gridHits := 1, gridMisses := 6, recentPeriods := [1000, 1100], lastOnsetTime := 363076/25 } := by
  apply Tracker.ext <;> decide

/-- Single-step evaluation of onset 15531.04 in the concrete runs. -/
theorem runStep17 : (addOnset 15531.04
    { state := TState.TRACKING, period := 1008, phase := 203056/25, targetPeriod := 25001/25, confidence := 43/100, calOnsets := [0, 1000, 2000, 3000, 4000, 5000, 6000, 7000, 8000], onsetCount := 16, gridHits := 1, gridMisses := 6, recentPeriods := [1000, 1100], lastOnsetTime := 363076/25 }).tracker =
    halfBeatRunLit := by
  apply Tracker.ext <;> decide
/-- Evaluation of the nine-onset calibration run, one onset at a time. -/
theorem calibrated_val : calibrated = calibratedLit := by
  unfold calibrated feed
  simp only [List.foldl]
  rw [runStep0, runStep1, runStep2, runStep3, runStep4, runStep5, runStep6,
    runStep7, runStep8, runStep9]

/-- Evaluation of the on-grid-then-seven-misses run, one onset at a time. -/
theorem halfBeatRun_val : halfBeatRun = halfBeatRunLit := by
  unfold halfBeatRun feed
  simp only [List.foldl]
  rw [calibrated_val, runStep10, runStep11, runStep12, runStep13, runStep14,
    runStep15, runStep16, runStep17]

/-- Filtering commutes with ascending sorting: sorting first and then
discarding invalid intervals (as the code does) produces the same list as
discarding first and then sorting (as the spec words it). -/
theorem insertionSort_filter_comm (l : List ℚ) (p : ℚ → Bool) :
    (l.insertionSort (· ≤ ·)).filter p = (l.filter p).insertionSort (· ≤ ·) := by
  refine @List.eq_of_perm_of_sorted ℚ (· ≤ ·) _ _ _ ?_ ?_ ?_
  · exact ((List.perm_insertionSort _ l).filter p).trans
      (List.perm_insertionSort _ (l.filter p)).symm
  · exact List.Pairwise.filter p (List.sorted_insertionSort _ l)
  · exact List.sorted_insertionSort _ _

/-- C3: the Dominant Period Estimator (`findDominantPeriod`) coincides with
the reference algorithm worded in the spec on every input, and in particular
returns 500 on the intervals `[500, 500, 500, 1000, 500, 500]` containing one
missed beat at twice the base period. -/
theorem findDominantPeriod_correct :
    (∀ intervals : List ℚ, findDominantPeriod intervals = specDominantPeriod intervals) ∧
    findDominantPeriod [500, 500, 500, 1000, 500, 500] = 500 := by
  constructor
  · intro l
    unfold findDominantPeriod specDominantPeriod
    simp only [insertionSort_filter_comm]
    rcases l with _ | ⟨a, l⟩
    · simp
    · simp only [List.isEmpty_cons, Bool.false_eq_true, if_false]
  · decide

/-- C9: an onset processed while IDLE only records the onset time and bumps
the onset counter; it emits no Update, appends no trace record, and leaves
every other field unchanged. -/
theorem idle_onset_frame (s : Tracker) (t : ℚ) (h : s.state = TState.IDLE) :
    addOnset t s = ⟨{ s with lastOnsetTime := t, onsetCount := s.onsetCount + 1 }, [], []⟩ := by
  simp [addOnset, h]

/-- Witness for `idle_onset_frame` at the freshly constructed tracker. -/
theorem idle_onset_frame_spot :
    initTracker.state = TState.IDLE ∧
    addOnset 5 initTracker =
      ⟨{ initTracker with lastOnsetTime := 5, onsetCount := initTracker.onsetCount + 1 }, [], []⟩ :=
  ⟨rfl, idle_onset_frame initTracker 5 rfl⟩

/-- C10: an Update emitted with `period == 0` carries `currentBpm = none`, one
emitted with `targetPeriod == 0` carries `targetBpm = none`, and whenever
either bpm field is `none` the `drift` field is the number 0, not `none`. -/
theorem emitUpdate_null_bpm (s : Tracker) :
    (s.period = 0 → (emitUpdate s).currentBpm = none) ∧
    (s.targetPeriod = 0 → (emitUpdate s).targetBpm = none) ∧
    ((emitUpdate s).currentBpm = none ∨ (emitUpdate s).targetBpm = none →
      (emitUpdate s).drift = 0) := by
  refine ⟨fun h => ?_, fun h => ?_, fun h => ?_⟩
  · simp [emitUpdate, h]
  · simp [emitUpdate, h]
  · by_cases hp : 0 < s.period <;> by_cases hq : 0 < s.targetPeriod <;>
      simp [emitUpdate, hp, hq] at h ⊢

/-- Witness for `emitUpdate_null_bpm` at the freshly constructed tracker. -/
theorem emitUpdate_null_bpm_spot :
    initTracker.period = 0 ∧
    (emitUpdate initTracker).currentBpm = none ∧
    (emitUpdate initTracker).drift = 0 :=
  ⟨rfl, (emitUpdate_null_bpm initTracker).1 rfl,
    (emitUpdate_null_bpm initTracker).2.2 (Or.inl ((emitUpdate_null_bpm initTracker).1 rfl))⟩

/-- C2 counterexample: `setTarget` does not reject a non-positive bpm.
Called with bpm = -120 on a fresh tracker it changes the tracker state
(entering TRACKING with a negative period of -500 ms) and emits an ordinary
Update rather than reporting any invalid-argument condition. -/
theorem setTarget_accepts_negative_bpm :
    (setTarget 0 (-120) initTracker).1.state = TState.TRACKING ∧
    (setTarget 0 (-120) initTracker).1.period = -500 ∧
    (setTarget 0 (-120) initTracker).1 ≠ initTracker ∧
    (setTarget 0 (-120) initTracker).2 = [emitUpdate (setTarget 0 (-120) initTracker).1] := by
  refine ⟨?_, ?_, ?_, ?_⟩ <;> decide

/-- C2 amended: `setTarget` performs no validation at all.  For every nonzero
bpm (zero is excluded only because `60000 / 0` is an infinity in JavaScript,
outside the rational model) it unconditionally sets
`period = targetPeriod = 60000 / bpm`, `confidence = 0.7`,
`state = TRACKING`, fabricates a full calibration buffer of `CAL_BEATS + 1`
zeros, and emits one ordinary Update. -/
theorem setTarget_behavior (s : Tracker) (now bpm : ℚ) (hbpm : bpm ≠ 0) :
    (setTarget now bpm s).1.period = 60000 / bpm ∧
    (setTarget now bpm s).1.targetPeriod = 60000 / bpm ∧
    (setTarget now bpm s).1.confidence = 0.7 ∧
    (setTarget now bpm s).1.state = TState.TRACKING ∧
    (setTarget now bpm s).1.calOnsets = List.replicate (CAL_BEATS + 1) 0 ∧
    (setTarget now bpm s).2 = [emitUpdate (setTarget now bpm s).1] := by
  refine ⟨rfl, rfl, rfl, rfl, rfl, rfl⟩

/-- Witness for `setTarget_behavior` at bpm = 120 on a fresh tracker. -/
theorem setTarget_behavior_spot :
    (120 : ℚ) ≠ 0 ∧ (setTarget 0 120 initTracker).1.period = 500 := by
  refine ⟨by norm_num, ?_⟩
  rw [(setTarget_behavior initTracker 0 120 (by norm_num)).1]
  norm_num

/-- C6: an onset arriving while WAITING moves the tracker to CALIBRATING with
`calOnsets = [t]`, leaving `period` and `targetPeriod` untouched; and
subsequent calibration steps either leave `period`/`targetPeriod` untouched or
overwrite both with a value computed from `calOnsets` alone, so the prior
values are discarded once recalibration completes. -/
theorem waiting_resume (s : Tracker) (t : ℚ) (h : s.state = TState.WAITING) :
    (addOnset t s).tracker =
      { s with lastOnsetTime := t, onsetCount := s.onsetCount + 1,
               calOnsets := [t], state := TState.CALIBRATING } ∧
    (addOnset t s).updates = [emitUpdate (addOnset t s).tracker] ∧
    (addOnset t s).events = ["resume_from_waiting"] ∧
    (∀ (s2 : Tracker) (t2 : ℚ), s2.state = TState.CALIBRATING →
      ((addOnset t2 s2).tracker.period = s2.period ∧
        (addOnset t2 s2).tracker.targetPeriod = s2.targetPeriod) ∨
      ((addOnset t2 s2).tracker.period = findDominantPeriod (intervalsOf (s2.calOnsets ++ [t2])) ∧
        (addOnset t2 s2).tracker.targetPeriod =
          findDominantPeriod (intervalsOf (s2.calOnsets ++ [t2])))) := by
  refine ⟨?_, ?_, ?_, ?_⟩
  · simp [addOnset, resumeStep, h]
  · simp [addOnset, resumeStep, h]
  · simp [addOnset, resumeStep, h]
  · intro s2 t2 h2
    have hA : addOnset t2 s2 =
        calStep t2 { s2 with lastOnsetTime := t2, onsetCount := s2.onsetCount + 1 } := by
      simp [addOnset, h2]
    rw [hA]
    simp only [calStep]
    split_ifs with h3 h4
    · exact Or.inl ⟨by simp, by simp⟩
    · exact Or.inr ⟨by simp, by simp⟩
    · exact Or.inl ⟨by simp, by simp⟩

/-- Witness for `waiting_resume` at a concrete WAITING tracker. -/
theorem waiting_resume_spot :
    ({ initTracker with state := TState.WAITING } : Tracker).state = TState.WAITING ∧
    (addOnset 7 { initTracker with state := TState.WAITING }).tracker.state =
      TState.CALIBRATING ∧
    (addOnset 7 { initTracker with state := TState.WAITING }).tracker.calOnsets = [7] := by
  have h := (waiting_resume { initTracker with state := TState.WAITING } 7 rfl).1
  exact ⟨rfl, by rw [h], by rw [h]⟩

/-- C5 amended: while TRACKING, an onset whose absolute grid offset lies in
(0.35, 0.65) and whose off-grid miss brings the counters to
`gridMisses > gridHits * 0.5` and `gridMisses > 6` triggers the double-tempo
correction.  If the halved period stays above `MIN_PERIOD_MS`: `period` and
`targetPeriod` are both set to half of the pre-onset `period` (`targetPeriod`
is only halved when it equals `period`), every entry of `recentPeriods` is
halved, `phase` becomes the onset timestamp, both counters are zeroed, and
`confidence` becomes `max 0.3 (c - 0.2)` where `c` is the confidence after
the off-grid decrement.  If the halved period would not stay above
`MIN_PERIOD_MS`, the onset is handled as a plain off-grid miss and none of
those changes occur. -/
theorem double_tempo_step (s : Tracker) (t : ℚ)
    (hst : s.state = TState.TRACKING) (hp : ¬s.period = 0)
    (h1 : 0.35 < |gridOffset s t|) (h2 : |gridOffset s t| < 0.65)
    (h3 : (s.gridHits : ℚ) * 0.5 < ((s.gridMisses + 1 : ℕ) : ℚ))
    (h4 : 6 < s.gridMisses + 1) :
    (MIN_PERIOD_MS < s.period / 2 →
      (addOnset t s).tracker.period = s.period / 2 ∧
      (addOnset t s).tracker.targetPeriod = s.period / 2 ∧
      (addOnset t s).tracker.recentPeriods = s.recentPeriods.map (fun p => p / 2) ∧
      (addOnset t s).tracker.phase = t ∧
      (addOnset t s).tracker.gridHits = 0 ∧
      (addOnset t s).tracker.gridMisses = 0 ∧
      (addOnset t s).tracker.confidence = max 0.3 (max 0 (s.confidence - 0.02) - 0.2) ∧
      (addOnset t s).events = ["double_tempo_correction"]) ∧
    (¬MIN_PERIOD_MS < s.period / 2 →
      (addOnset t s).tracker =
        { s with lastOnsetTime := t, onsetCount := s.onsetCount + 1,
                 gridMisses := s.gridMisses + 1,
                 confidence := max 0 (s.confidence - 0.02) } ∧
      (addOnset t s).events = ["off_grid"]) := by
  have h1a : 0.35 < |(t - s.phase) / s.period - (round ((t - s.phase) / s.period) : ℚ)| := by
    simpa [gridOffset] using h1
  have h2a : |(t - s.phase) / s.period - (round ((t - s.phase) / s.period) : ℚ)| < 0.65 := by
    simpa [gridOffset] using h2
  have hong : ¬(|(t - s.phase) / s.period - (round ((t - s.phase) / s.period) : ℚ)| <
      GRID_TOLERANCE) := by
    simp only [GRID_TOLERANCE]
    push_neg
    linarith
  have hA : addOnset t s =
      trackStep t { s with lastOnsetTime := t, onsetCount := s.onsetCount + 1 } := by
    simp [addOnset, hst, hp]
  rw [hA]
  simp only [trackStep, gridHitStep, doubleTempoStep]
  rw [if_neg hong]
  dsimp only
  rw [if_pos ⟨h1a, h2a, h3, h4⟩]
  constructor
  · intro h5
    rw [if_pos h5]
    dsimp only
    exact ⟨rfl, rfl, rfl, rfl, rfl, rfl, rfl, rfl⟩
  · intro h5n
    rw [if_neg h5n]
    exact ⟨rfl, rfl⟩

/-- Witness for `double_tempo_step` at `halfBeatState` with an onset at
t = 1500 (absolute grid offset 0.5). -/
theorem double_tempo_step_spot :
    0.35 < |gridOffset halfBeatState 1500| ∧
    (addOnset 1500 halfBeatState).tracker.period = 500 ∧
    (addOnset 1500 halfBeatState).tracker.targetPeriod = 500 ∧
    (addOnset 1500 halfBeatState).tracker.confidence = 0.3 := by
  have h := (double_tempo_step halfBeatState 1500
    rfl (by decide) (by decide)
    (by decide) (by decide)
    (by decide)).1 (by decide)
  refine ⟨by decide, ?_, ?_, ?_⟩
  · rw [h.1]; decide
  · rw [h.2.1]; decide
  · rw [h.2.2.2.2.2.2.1]; decide

/-- C5 counterexample: in the reachable state `halfBeatRun`
(`period = 1008`, `targetPeriod = 1000.04`, `gridHits = 1`,
`gridMisses = 7`), the onset at 16690.24 satisfies every trigger condition of
the double-tempo correction — under both the pre-increment and the
post-increment reading of the counters — and the correction fires, but
`targetPeriod` afterwards is `504 = period / 2`, not
`targetPeriod / 2 = 500.02`: the correction does not halve `targetPeriod`. -/
theorem double_tempo_target_not_halved :
    halfBeatRun.state = TState.TRACKING ∧
    halfBeatRun.period = 1008 ∧
    halfBeatRun.targetPeriod = 1000.04 ∧
    halfBeatRun.gridHits = 1 ∧
    halfBeatRun.gridMisses = 7 ∧
    0.35 < |gridOffset halfBeatRun 16690.24| ∧
    |gridOffset halfBeatRun 16690.24| < 0.65 ∧
    MIN_PERIOD_MS < halfBeatRun.period / 2 ∧
    (addOnset 16690.24 halfBeatRun).events = ["double_tempo_correction"] ∧
    (addOnset 16690.24 halfBeatRun).tracker.targetPeriod = 504 ∧
    (addOnset 16690.24 halfBeatRun).tracker.targetPeriod ≠ halfBeatRun.targetPeriod / 2 := by
  rw [halfBeatRun_val]
  refine ⟨?_, ?_, ?_, ?_, ?_, ?_, ?_, ?_, ?_, ?_, ?_⟩ <;> decide

/-- C1: evaluation at the failing input.  After calibration at 1000 ms the
single on-grid onset at 9100 is handled by the plain on-grid branch (trace
event "on_grid", no double-tempo correction), yet `targetPeriod` moves from
1000 to 1000.04: the ADAPT_SLOW nudge changes the target during tracking. -/
theorem targetPeriod_drifts_during_tracking :
    calibrated.state = TState.TRACKING ∧
    calibrated.targetPeriod = 1000 ∧
    (addOnset 9100 calibrated).events = ["on_grid"] ∧
    (addOnset 9100 calibrated).tracker.targetPeriod = 1000.04 ∧
    (addOnset 9100 calibrated).tracker.targetPeriod ≠ calibrated.targetPeriod := by
  rw [calibrated_val]
  refine ⟨?_, ?_, ?_, ?_, ?_⟩ <;> decide

/-- The inductive invariant carried through every reachable state: bounded
confidence, a positive period while TRACKING, and an empty calibration buffer
while IDLE. -/
def Inv (s : Tracker) : Prop :=
  0 ≤ s.confidence ∧ s.confidence ≤ 1 ∧
  (s.state = TState.TRACKING → 0 < s.period) ∧
  (s.state = TState.IDLE → s.calOnsets = [])

theorem inv_initTracker : Inv initTracker := by
  refine ⟨le_refl 0, by norm_num [initTracker], ?_, fun _ => rfl⟩
  intro h
  exact absurd h (by decide)

theorem inv_reset (s : Tracker) : Inv (reset s).1 := by
  refine ⟨le_refl 0, by norm_num [reset], ?_, ?_⟩ <;> intro h <;> exact absurd h (by simp [reset])

theorem inv_enterWaiting (s : Tracker) : Inv (enterWaiting s).1 := by
  refine ⟨le_refl 0, by norm_num [enterWaiting], ?_, ?_⟩ <;>
    intro h <;> exact absurd h (by simp [enterWaiting])

theorem inv_silenceTick (s : Tracker) (now : ℚ) (h : Inv s) : Inv (silenceTick now s).1 := by
  simp only [silenceTick]
  split_ifs <;> first | exact h | exact inv_enterWaiting s

theorem inv_setTarget (s : Tracker) (now bpm : ℚ) (hb : 0 < bpm) :
    Inv (setTarget now bpm s).1 := by
  refine ⟨by norm_num [setTarget], by norm_num [setTarget], fun _ => ?_, ?_⟩
  · show (0 : ℚ) < 60000 / bpm
    positivity
  · intro hiff
    exact absurd hiff (by simp [setTarget])

theorem inv_resumeStep (t : ℚ) (s : Tracker) (h : Inv s) : Inv (resumeStep t s).tracker := by
  obtain ⟨h0, h1, _, _⟩ := h
  refine ⟨h0, h1, ?_, ?_⟩ <;> intro hiff <;> exact absurd hiff (by simp [resumeStep])

theorem inv_calStep (t : ℚ) (s : Tracker) (h : Inv s) (hc : s.state = TState.CALIBRATING) :
    Inv (calStep t s).tracker := by
  obtain ⟨h0, h1, _, _⟩ := h
  simp only [calStep]
  split_ifs with hlen hbase
  · exact ⟨h0, h1, fun hiff => absurd (hc.symm.trans hiff) (by decide),
      fun hiff => absurd (hc.symm.trans hiff) (by decide)⟩
  · exact ⟨by norm_num, by norm_num, fun _ => hbase,
      fun hiff => absurd (show TState.TRACKING = TState.IDLE from hiff) (by decide)⟩
  · exact ⟨h0, h1, fun hiff => absurd (hc.symm.trans hiff) (by decide),
      fun hiff => absurd (hc.symm.trans hiff) (by decide)⟩

/-- Bounds preserved by the on-grid / off-grid half of the tracking phase. -/
theorem gridHitStep_bounds (t : ℚ) (s : Tracker)
    (h0 : 0 ≤ s.confidence) (h1 : s.confidence ≤ 1) (hp : 0 < s.period) :
    0 ≤ (gridHitStep t s).1.confidence ∧ (gridHitStep t s).1.confidence ≤ 1 ∧
    0 < (gridHitStep t s).1.period ∧ (gridHitStep t s).1.state = s.state ∧
    (gridHitStep t s).1.calOnsets = s.calOnsets := by
  simp only [gridHitStep]
  split_ifs with ha hb hrec <;> refine ⟨?_, ?_, ?_, rfl, rfl⟩ <;> dsimp only
  · exact le_min (by norm_num) (by linarith)
  · exact min_le_left _ _
  · simp only [ADAPT_FAST]
    simp only [MIN_PERIOD_MS] at hb
    linarith [hb.1]
  · exact le_min (by norm_num) (by linarith)
  · exact min_le_left _ _
  · simp only [ADAPT_FAST]
    simp only [MIN_PERIOD_MS] at hb
    linarith [hb.1]
  · exact h0
  · exact h1
  · exact hp
  · exact le_max_left _ _
  · exact max_le (by norm_num) (by linarith)
  · exact hp

/-- Bounds preserved by the double-tempo half of the tracking phase. -/
theorem doubleTempoStep_bounds (t : ℚ) (s : Tracker) (hit : Tracker × String)
    (h0 : 0 ≤ hit.1.confidence) (h1 : hit.1.confidence ≤ 1) (hp : 0 < hit.1.period) :
    0 ≤ (doubleTempoStep t s hit).1.confidence ∧
    (doubleTempoStep t s hit).1.confidence ≤ 1 ∧
    0 < (doubleTempoStep t s hit).1.period ∧
    (doubleTempoStep t s hit).1.state = hit.1.state ∧
    (doubleTempoStep t s hit).1.calOnsets = hit.1.calOnsets := by
  simp only [doubleTempoStep]
  split_ifs with ha hb <;> refine ⟨?_, ?_, ?_, rfl, rfl⟩ <;> dsimp only
  · exact le_trans (by norm_num) (le_max_left (0.3 : ℚ) _)
  · exact max_le (by norm_num) (by linarith)
  · simp only [MIN_PERIOD_MS] at hb
    linarith
  · exact h0
  · exact h1
  · exact hp
  · exact h0
  · exact h1
  · exact hp

theorem inv_trackStep (t : ℚ) (s : Tracker) (h : Inv s) (hst : s.state = TState.TRACKING)
    (hp : 0 < s.period) : Inv (trackStep t s).tracker := by
  obtain ⟨h0, h1, _, _⟩ := h
  obtain ⟨g0, g1, g2, g3, g4⟩ := gridHitStep_bounds t s h0 h1 hp
  obtain ⟨d0, d1, d2, d3, d4⟩ := doubleTempoStep_bounds t s (gridHitStep t s) g0 g1 g2
  refine ⟨d0, d1, fun _ => d2, fun hid => ?_⟩
  have : s.state = TState.IDLE := by rw [← g3, ← d3]; exact hid
  exact absurd (hst.symm.trans this) (by decide)

theorem inv_addOnset (t : ℚ) (s : Tracker) (h : Inv s) : Inv (addOnset t s).tracker := by
  obtain ⟨h0, h1, hper, hcal⟩ := h
  simp only [addOnset]
  split_ifs with h1w h2c h3t
  · exact inv_resumeStep t _ ⟨h0, h1, fun hiff => hper hiff, fun hiff => hcal hiff⟩
  · exact inv_calStep t _ ⟨h0, h1, fun hiff => hper hiff, fun hiff => hcal hiff⟩ h2c
  · exact inv_trackStep t _ ⟨h0, h1, fun hiff => hper hiff, fun hiff => hcal hiff⟩
      h3t.1 (hper h3t.1)
  · exact ⟨h0, h1, fun hiff => hper hiff, fun hiff => hcal hiff⟩

/-- Every reachable state satisfies the inductive invariant. -/
theorem reachable_inv (s : Tracker) (h : Reachable s) : Inv s := by
  induction h with
  | init => exact inv_initTracker
  | reset _ _ => exact inv_reset _
  | onset _ t ih => exact inv_addOnset t _ ih
  | target _ now bpm hb _ => exact inv_setTarget _ now bpm hb
  | tick _ now ih => exact inv_silenceTick _ now ih

/-- Bounds on the confidence field of an emitted Update: with the internal
confidence in `[0, 1]`, `round (confidence * 100)` lies in `[0, 100]`. -/
theorem emitUpdate_conf_bounds (s : Tracker)
    (h0 : 0 ≤ s.confidence) (h1 : s.confidence ≤ 1) :
    0 ≤ (emitUpdate s).confidence ∧ (emitUpdate s).confidence ≤ 100 := by
  have he : (emitUpdate s).confidence = round (s.confidence * 100) := rfl
  rw [he, round_eq]
  constructor
  · exact Int.le_floor.mpr (by push_cast; linarith)
  · calc ⌊s.confidence * 100 + 1 / 2⌋ ≤ ⌊(100.5 : ℚ)⌋ := Int.floor_le_floor (by linarith)
      _ = 100 := by
        rw [Int.floor_eq_iff]
        norm_num

/-- `addOnset` emits either no Update (IDLE) or exactly one Update describing
the post-onset state. -/
theorem addOnset_updates (t : ℚ) (s : Tracker) :
    (addOnset t s).updates = [] ∨
    (addOnset t s).updates = [emitUpdate (addOnset t s).tracker] := by
  simp only [addOnset, resumeStep, calStep, trackStep]
  split_ifs <;> simp

/-- A silence-watchdog tick emits either no Update or exactly one Update
describing the post-tick state. -/
theorem silenceTick_updates (now : ℚ) (s : Tracker) :
    (silenceTick now s).2 = [] ∨ (silenceTick now s).2 = [emitUpdate (silenceTick now s).1] := by
  simp only [silenceTick, enterWaiting]
  split_ifs <;> simp

/-- C4: in every reachable state — under any finite sequence of `reset`,
`addOnset`, `setTarget` with positive bpm, and watchdog ticks — the internal
confidence stays in `[0, 1]`, and every Update emitted by any further
operation reports a confidence in `[0, 100]`. -/
theorem confidence_bounds (s : Tracker) (h : Reachable s) :
    (0 ≤ s.confidence ∧ s.confidence ≤ 1) ∧
    (∀ t : ℚ, ∀ u ∈ (addOnset t s).updates, 0 ≤ u.confidence ∧ u.confidence ≤ 100) ∧
    (∀ u ∈ (reset s).2, 0 ≤ u.confidence ∧ u.confidence ≤ 100) ∧
    (∀ now bpm : ℚ, 0 < bpm →
      ∀ u ∈ (setTarget now bpm s).2, 0 ≤ u.confidence ∧ u.confidence ≤ 100) ∧
    (∀ now : ℚ, ∀ u ∈ (silenceTick now s).2, 0 ≤ u.confidence ∧ u.confidence ≤ 100) := by
  have hi := reachable_inv s h
  refine ⟨⟨hi.1, hi.2.1⟩, ?_, ?_, ?_, ?_⟩
  · intro t u hu
    rcases addOnset_updates t s with he | he
    · rw [he] at hu
      exact absurd hu (List.not_mem_nil u)
    · rw [he] at hu
      obtain rfl := List.mem_singleton.mp hu
      have hi2 := reachable_inv _ (Reachable.onset h t)
      exact emitUpdate_conf_bounds _ hi2.1 hi2.2.1
  · intro u hu
    rw [show (reset s).2 = [emitUpdate (reset s).1] from rfl] at hu
    obtain rfl := List.mem_singleton.mp hu
    have hi2 := reachable_inv _ (Reachable.reset h)
    exact emitUpdate_conf_bounds _ hi2.1 hi2.2.1
  · intro now bpm hb u hu
    rw [show (setTarget now bpm s).2 = [emitUpdate (setTarget now bpm s).1] from rfl] at hu
    obtain rfl := List.mem_singleton.mp hu
    have hi2 := reachable_inv _ (Reachable.target h now bpm hb)
    exact emitUpdate_conf_bounds _ hi2.1 hi2.2.1
  · intro now u hu
    rcases silenceTick_updates now s with he | he
    · rw [he] at hu
      exact absurd hu (List.not_mem_nil u)
    · rw [he] at hu
      obtain rfl := List.mem_singleton.mp hu
      have hi2 := reachable_inv _ (Reachable.tick h now)
      exact emitUpdate_conf_bounds _ hi2.1 hi2.2.1

/-- Witness for `confidence_bounds` at the freshly constructed tracker and
the Update emitted by `reset`. -/
theorem confidence_bounds_spot :
    (0 ≤ initTracker.confidence ∧ initTracker.confidence ≤ 1) ∧
    (0 ≤ (emitUpdate (reset initTracker).1).confidence ∧
      (emitUpdate (reset initTracker).1).confidence ≤ 100) := by
  have h := confidence_bounds initTracker Reachable.init
  exact ⟨h.1, h.2.2.1 (emitUpdate (reset initTracker).1) (List.mem_singleton.mpr rfl)⟩

/-- C7 counterexample: a reachable state that is WAITING with `period == 0`.
After `reset`, one onset at t = 1000, and a watchdog tick at t = 6000 (gap
5000 ms > SILENCE_TIMEOUT_MS), the tracker is forced from CALIBRATING to
WAITING while `period` is still 0 because the Estimator never ran. -/
theorem waiting_with_zero_period :
    Reachable (silenceTick 6000 (addOnset 1000 (reset initTracker).1).tracker).1 ∧
    (silenceTick 6000 (addOnset 1000 (reset initTracker).1).tracker).1.state =
      TState.WAITING ∧
    (silenceTick 6000 (addOnset 1000 (reset initTracker).1).tracker).1.period = 0 := by
  refine ⟨Reachable.tick (Reachable.onset (Reachable.reset Reachable.init) 1000) 6000,
    ?_, ?_⟩ <;> decide

/-- C7 amended: in every reachable state, `period == 0` implies
`state ∈ {IDLE, CALIBRATING, WAITING}` — equivalently the tracker is never
TRACKING with `period == 0`; WAITING with `period == 0` is reachable when
silence interrupts calibration before the Estimator has produced a result. -/
theorem period_zero_state (s : Tracker) (h : Reachable s) :
    (s.state = TState.TRACKING → 0 < s.period) ∧
    (s.period = 0 →
      s.state = TState.IDLE ∨ s.state = TState.CALIBRATING ∨ s.state = TState.WAITING) := by
  have hi := reachable_inv s h
  refine ⟨hi.2.2.1, fun hp => ?_⟩
  rcases hst : s.state with _ | _ | _ | _
  · exact Or.inl rfl
  · exact Or.inr (Or.inl rfl)
  · exact absurd (hi.2.2.1 hst) (by rw [hp]; exact lt_irrefl 0)
  · exact Or.inr (Or.inr rfl)

/-- Witness for `period_zero_state` at the freshly constructed tracker. -/
theorem period_zero_state_spot :
    initTracker.period = 0 ∧
    (initTracker.state = TState.IDLE ∨ initTracker.state = TState.CALIBRATING ∨
      initTracker.state = TState.WAITING) :=
  ⟨rfl, (period_zero_state initTracker Reachable.init).2 rfl⟩

/-- C8 counterexample: a reachable TRACKING state with non-empty `calOnsets`.
`setTarget 120` fabricates a full calibration buffer of `CAL_BEATS + 1` zeros
and enters TRACKING, so `calOnsets` is non-empty outside CALIBRATING. -/
theorem calOnsets_nonempty_while_tracking :
    Reachable (setTarget 0 120 initTracker).1 ∧
    (setTarget 0 120 initTracker).1.state = TState.TRACKING ∧
    (setTarget 0 120 initTracker).1.calOnsets ≠ [] := by
  refine ⟨Reachable.target Reachable.init 0 120 (by norm_num), ?_, ?_⟩ <;> decide

/-- C8 amended: `calOnsets` can be non-empty in TRACKING (after calibration
completes or after `setTarget`) and in WAITING (which clears nothing); the
invariant that does hold in every reachable state is that `calOnsets` is
empty while `state == IDLE`. -/
theorem calOnsets_empty_in_idle (s : Tracker) (h : Reachable s) :
    s.state = TState.IDLE → s.calOnsets = [] :=
  (reachable_inv s h).2.2.2

/-- Witness for `calOnsets_empty_in_idle` at the freshly constructed
tracker. -/
theorem calOnsets_empty_in_idle_spot :
    initTracker.state = TState.IDLE ∧ initTracker.calOnsets = [] :=
  ⟨rfl, calOnsets_empty_in_idle initTracker Reachable.init rfl⟩

end BeatDrift
